import Mathlib

/-!
# A shallow embedding of the `clip` command-line parser (clip.c / clip.h)

C strings are modelled as `List Char` (NUL-free on entry; an embedded NUL
written by the parser is represented by `Char.ofNat 0`).  Sentinel-terminated
option/sub-command arrays are modelled as Lean lists; the `IS_OPT_END` /
`IS_CMD_END` sentinel scans of the C code become list recursion.  The caller
callback is an opaque parameter; each invocation is also recorded in a trace.
File I/O for `@file` expansion is modelled by a map from path to the list of
line chunks that `fgets` would return.  Output rendered with `fprintf` is
abstracted into a list of output events; the full help text produced by
`cli_summary` is summarised as a single event, but its one state effect
(clearing the short key of the shared static `def_version` descriptor) is
modelled exactly.
-/

namespace Clip

/-- A C byte string (without its terminating NUL). -/
abbrev Str := List Char

/-- `ARG_REQD` from clip.c: the option requires a value. -/
def ARG_REQD : Nat := 1

/-- `ARG_ANYK` from clip.c: the option is a catch-all (`CLI_OPT_NARGS`). -/
def ARG_ANYK : Nat := 2

/-- `CLIP_FLAG_HELP` from clip.h. -/
def CLIP_FLAG_HELP : Nat := 1

/-- `CLIP_FLAG_VERSION` from clip.h. -/
def CLIP_FLAG_VERSION : Nat := 2

/-- `CLIP_FLAG_USE_ANSI` from clip.h. -/
def CLIP_FLAG_USE_ANSI : Nat := 4

/-- `CLIP_ERR_OK` from clip.h. -/
def CLIP_ERR_OK : Int := 0

/-- `CLIP_ERR_HELP` from clip.h. -/
def CLIP_ERR_HELP : Int := 1

/-- `CLIP_ERR_INVALID` from clip.h. -/
def CLIP_ERR_INVALID : Int := -1

/-- `CLIP_ERR_CB_FAIL` from clip.h. -/
def CLIP_ERR_CB_FAIL : Int := -2

/-- `CLIP_ERR_BAD_SUBCMD` from clip.h. -/
def CLIP_ERR_BAD_SUBCMD : Int := -3

/-- `CLIP_ERR_BAD_ARG` from clip.h. -/
def CLIP_ERR_BAD_ARG : Int := -4

/-- C `isalnum` on a byte value, in the C locale (ASCII letters and digits). -/
def isalnumN (c : Nat) : Bool :=
  (65 ≤ c && c ≤ 90) || (97 ≤ c && c ≤ 122) || (48 ≤ c && c ≤ 57)

/-- The NUL byte a C string read yields past its end. -/
def nulChar : Char := Char.ofNat 0

/-- Byte `s[i]` of a C string: the stored character, or NUL at/past the end. -/
def byteAt (s : Str) (i : Nat) : Char := s.getD i nulChar

/-- `struct cli_opt` from clip.h.  `a_short` is the C `int` field (an option
may use a non-printable code such as 300), `mode` the C bit mask. -/
structure cli_opt where
  a_short : Nat
  a_long : Option Str
  tag : Option Str
  mode : Nat
  help : Option Str
deriving DecidableEq, Repr

/-- `struct cli_sub_cmd` from clip.h; `name` is NULL exactly for the base. -/
structure cli_sub_cmd where
  name : Option Str
  opts : List cli_opt
deriving DecidableEq, Repr

/-- The caller-set fields of `struct clip` from clip.h (the private `index`
field included; `live` is threaded through the parse state, and the opaque
`usr` pointer and `out` stream are not represented). -/
structure clip_t where
  progname : Str
  header : Option Str
  footer : Option Str
  version : Option Str
  flags : Nat
  base : Option cli_sub_cmd
  cmds : Option (List cli_sub_cmd)
  index : Nat
deriving DecidableEq, Repr

/-- One recorded callback invocation: the group (`cmd`), option (`arg`) and
value arguments.  `opt = none` would be a sub-command-selection invocation. -/
structure CallRec where
  cmd : Option cli_sub_cmd
  opt : Option cli_opt
  val : Option Str
deriving DecidableEq, Repr

/-- Observable output: a `cli_summary` render, the auto-version line, a
`cli_bad_arg` diagnostic line, or the arguments-file open failure message. -/
inductive OutEv where
  | helpText (ctx : Option cli_sub_cmd)
  | versionLine (prog : Str) (ver : Str)
  | diag (pfx : Str) (tag : Nat) (key : Str)
  | fileErr (path : Str)
deriving DecidableEq, Repr

/-- The outcome of a parse: return code, callback trace, output events, the
final contents of the caller argv buffers, and the final value of the static
`def_version.a_short` global. -/
structure ParseRes where
  r : Int
  trace : List CallRec
  out : List OutEv
  av : List Str
  defVer : Nat
deriving DecidableEq, Repr

/-- The mutable state of one `cli_parse` invocation: cursor, live group,
accumulated callback trace and output, argv buffers, `def_version.a_short`. -/
structure St where
  index : Nat
  live : Option cli_sub_cmd
  trace : List CallRec
  out : List OutEv
  av : List Str
  defVer : Nat
deriving DecidableEq, Repr

/-- The caller callback (its `clip` and `usr` arguments are opaque to the
parser, so they are dropped from the model). -/
abbrev Cb := Option cli_sub_cmd → cli_opt → Option Str → Int

/-- The file system as seen by `cli_do_file`: a path maps to the chunks that
successive `fgets` calls return (each includes its newline), or to `none`
when `fopen` fails. -/
abbrev Fs := Str → Option (List Str)

/-- Package a return code with the current state, as the `done:` label does. -/
def mkRes (r : Int) (st : St) : ParseRes :=
  ⟨r, st.trace, st.out, st.av, st.defVer⟩

/-- Record one callback invocation in the trace. -/
def addCall (st : St) (c : CallRec) : St :=
  { st with trace := st.trace ++ [c] }

/-- `cli_bad_arg` from clip.c: emit one diagnostic line (prefix, number of
leading dashes / `@` selector, offending key). -/
def cli_bad_arg (st : St) (tag : Nat) (pfx : Str) (key : Str) : St :=
  { st with out := st.out ++ [OutEv.diag pfx tag key] }

/-- `IS_SHORT_OPT` from clip.c: `v[0] == '-' && isalnum(v[1])`. -/
def isShortOpt (v : Str) : Bool :=
  byteAt v 0 == '-' && isalnumN (byteAt v 1).toNat

/-- `IS_LONG_OPT` from clip.c: `v[0] == '-' && v[1] == '-' && isalnum(v[2])`. -/
def isLongOpt (v : Str) : Bool :=
  byteAt v 0 == '-' && byteAt v 1 == '-' && isalnumN (byteAt v 2).toNat

/-- `IS_DOUBLE_DASH` from clip.c: `v[0] == '-' && v[1] == '-' && v[2] == 0`. -/
def isDoubleDash (v : Str) : Bool :=
  byteAt v 0 == '-' && byteAt v 1 == '-' && byteAt v 2 == nulChar

/-- Index of the first occurrence of `c` in `s` (C `strchr`). -/
def strchrIdx (s : Str) (c : Char) : Option Nat :=
  match s with
  | [] => none
  | x :: xs =>
    if x == c then some 0
    else match strchrIdx xs c with
         | some j => some (j + 1)
         | none => none

/-- `cli__find_any` from clip.c: first option with the `ARG_ANYK` bit. -/
def cli_find_any (cmd : Option cli_sub_cmd) : Option cli_opt :=
  match cmd with
  | none => none
  | some c => c.opts.find? (fun o => (o.mode &&& ARG_ANYK) != 0)

/-- The per-option test of `cli__find_opt_0`: catch-alls are skipped, a
one-byte key is compared with `a_short`, a longer key with `a_long` by exact
length and content. -/
def optMatches (o : cli_opt) (str : Str) : Bool :=
  if (o.mode &&& ARG_ANYK) != 0 then false
  else match str with
       | [c] => c.toNat == o.a_short
       | _ :: _ :: _ => o.a_long == some str
       | [] => false

/-- `cli__find_opt_0` from clip.c: scan one group for a key. -/
def cli_find_opt_0 (cmd : Option cli_sub_cmd) (str : Str) : Option cli_opt :=
  match cmd with
  | none => none
  | some c => c.opts.find? (fun o => optMatches o str)

/-- `cli__find_opt` from clip.c: look in the live group, then (when the live
group is not the base) fall back to the base; the returned `whence` is the
group the option was found in. -/
def cli_find_opt (clip : clip_t) (cmd : Option cli_sub_cmd) (str : Str) :
    Option (Option cli_sub_cmd × cli_opt) :=
  match cli_find_opt_0 cmd str with
  | some o => some (cmd, o)
  | none =>
    if cmd = clip.base then none
    else match cli_find_opt_0 clip.base str with
         | some o => some (clip.base, o)
         | none => none

/-- `cli__find_cmd` from clip.c: exact, case-sensitive name match among the
registered sub-commands (a NULL-named entry never matches). -/
def cli_find_cmd (clip : clip_t) (name : Str) : Option cli_sub_cmd :=
  match clip.cmds with
  | none => none
  | some cs => cs.find? (fun c => c.name == some name)

/-- The one state effect of `cli_summary` from clip.c: when the version flag
is set and the base group declares a short `v` option, the shared static
`def_version` descriptor has its `a_short` field cleared to `0`. -/
def cli_summary_defver (clip : clip_t) (dv : Nat) : Nat :=
  if (clip.flags &&& CLIP_FLAG_VERSION) != 0 &&
     (cli_find_opt_0 clip.base [ 'v' ]).isSome
  then 0 else dv

/-- The diagnostic prefix `"Invalid option:"` used by clip.c. -/
def MSG_INVALID_OPT : Str := "Invalid option:".toList

/-- The diagnostic prefix `"Missing required value for"` used by clip.c. -/
def MSG_MISSING_VAL : Str := "Missing required value for".toList

/-- The diagnostic prefix `"Unrecognised option:"` used by clip.c. -/
def MSG_UNRECOGNISED : Str := "Unrecognised option:".toList

/-- The `IS_SHORT_OPT` branch of the `cli_parse` main loop: the `do`/`while`
over the cluster characters after the leading dash.  `rest` holds the bytes
of the token from the current position `i` on; on the value-from-next-token
path the code re-points `arg` at the value and sets `i` past it, ending the
cluster, so every `ARG_REQD` hit stops the cluster.  Returns the final result
on abort (`Sum.inl`) or the state to continue the main loop with. -/
def cli_short (clip : clip_t) (cb : Cb) (argc : Nat) (st : St) (rest : Str) :
    ParseRes ⊕ St :=
  match rest with
  | [] => Sum.inr st
  | c :: rest2 =>
    match cli_find_opt clip st.live [c] with
    | none =>
      Sum.inl (mkRes CLIP_ERR_BAD_ARG (cli_bad_arg st 1 MSG_INVALID_OPT [c]))
    | some (whence, opt) =>
      if opt.mode == 0 then
        let rc := cb whence opt none
        let st := addCall st ⟨whence, some opt, none⟩
        if rc != 0 then Sum.inl (mkRes CLIP_ERR_CB_FAIL st)
        else cli_short clip cb argc st rest2
      else if (opt.mode &&& ARG_REQD) != 0 then
        match rest2 with
        | [] =>
          if st.index < argc then
            let val := st.av.getD st.index []
            let st := { st with index := st.index + 1 }
            let rc := cb whence opt (some val)
            let st := addCall st ⟨whence, some opt, some val⟩
            if rc != 0 then Sum.inl (mkRes CLIP_ERR_CB_FAIL st)
            else Sum.inr st
          else
            Sum.inl (mkRes CLIP_ERR_BAD_ARG
              (cli_bad_arg st 1 MSG_MISSING_VAL [c]))
        | _ :: _ =>
          let rc := cb whence opt (some rest2)
          let st := addCall st ⟨whence, some opt, some rest2⟩
          if rc != 0 then Sum.inl (mkRes CLIP_ERR_CB_FAIL st)
          else Sum.inr st
      else
        cli_short clip cb argc st rest2

/-- The `IS_LONG_OPT` branch of the `cli_parse` main loop.  `pos` is the argv
index of `arg`.  When the token holds a `=`, that byte of the caller buffer
is overwritten with NUL before the lookup and written back to `=` just before
the branch falls out to the loop; the `goto done` paths (unknown key, missing
value, failed switch callback) and the early `return r` path (failed
value-option callback) leave the NUL in place. -/
def cli_long (clip : clip_t) (cb : Cb) (argc : Nat) (st : St) (pos : Nat)
    (arg : Str) : ParseRes ⊕ St :=
  let key0 := arg.drop 2
  let eq := strchrIdx key0 '='
  let st :=
    match eq with
    | some j => { st with av := st.av.set pos (arg.set (2 + j) nulChar) }
    | none => st
  let key := match eq with | some j => key0.take j | none => key0
  match cli_find_opt clip st.live key with
  | none =>
    Sum.inl (mkRes CLIP_ERR_BAD_ARG (cli_bad_arg st 2 MSG_INVALID_OPT key))
  | some (whence, opt) =>
    if opt.mode == 0 then
      let rc := cb whence opt none
      let st := addCall st ⟨whence, some opt, none⟩
      if rc != 0 then Sum.inl (mkRes CLIP_ERR_CB_FAIL st)
      else
        match eq with
        | some j => Sum.inr { st with av := st.av.set pos (arg.set (2 + j) '=') }
        | none => Sum.inr st
    else if (opt.mode &&& ARG_REQD) != 0 then
      let valAndSt : Option Str × St :=
        match eq with
        | some j => (some (key0.drop (j + 1)), st)
        | none =>
          if st.index < argc then
            (some (st.av.getD st.index []), { st with index := st.index + 1 })
          else (none, st)
      let st := valAndSt.2
      match valAndSt.1 with
      | none =>
        Sum.inl (mkRes CLIP_ERR_BAD_ARG (cli_bad_arg st 2 MSG_MISSING_VAL key))
      | some val =>
        let rc := cb whence opt (some val)
        let st := addCall st ⟨whence, some opt, some val⟩
        if rc != 0 then Sum.inl (mkRes CLIP_ERR_CB_FAIL st)
        else
          match eq with
          | some j => Sum.inr { st with av := st.av.set pos (arg.set (2 + j) '=') }
          | none => Sum.inr st
    else
      match eq with
      | some j => Sum.inr { st with av := st.av.set pos (arg.set (2 + j) '=') }
      | none => Sum.inr st

/-- The `fgets` loop of `cli_do_file` from clip.c: each chunk is truncated at
its first newline (the non-Windows build), split at the first `=` if present
else the first space into key and optional value, resolved against the live
group with base fallback, and delivered to the callback; an unknown key or a
failing callback aborts the file. -/
def cli_file_lines (clip : clip_t) (cb : Cb) (st : St) :
    List Str → Int × St
  | [] => (0, st)
  | raw :: rest =>
    let line := raw.takeWhile (fun c => c != '\n')
    let eq :=
      match strchrIdx line '=' with
      | some j => some j
      | none => strchrIdx line ' '
    let key := match eq with | some j => line.take j | none => line
    let val := match eq with | some j => some (line.drop (j + 1)) | none => none
    match cli_find_opt clip st.live key with
    | none =>
      let st := cli_bad_arg st (if key.length == 1 then 1 else 2)
                  MSG_INVALID_OPT key
      (CLIP_ERR_BAD_ARG, st)
    | some (whence, opt) =>
      let rc := cb whence opt val
      let st := addCall st ⟨whence, some opt, val⟩
      if rc != 0 then (CLIP_ERR_CB_FAIL, st)
      else cli_file_lines clip cb st rest

/-- `cli_do_file` from clip.c: open the file (failure is `CLIP_ERR_BAD_ARG`
with a message) and process its lines.  The bounded `fgets` buffer is
reflected by taking the chunk list from the file-system model. -/
def cli_do_file (clip : clip_t) (cb : Cb) (fs : Fs) (st : St) (path : Str) :
    Int × St :=
  match fs path with
  | none =>
    (CLIP_ERR_BAD_ARG, { st with out := st.out ++ [OutEv.fileErr path] })
  | some chunks => cli_file_lines clip cb st chunks

/-- The final (bare token) branch of the `cli_parse` main loop: deliver the
raw token to the live group catch-all, or fail as unrecognised. -/
def cli_bare (clip : clip_t) (cb : Cb) (st : St) (arg : Str) : ParseRes ⊕ St :=
  match cli_find_any st.live with
  | none =>
    Sum.inl (mkRes CLIP_ERR_BAD_ARG (cli_bad_arg st 0 MSG_UNRECOGNISED arg))
  | some opt =>
    let rc := cb st.live opt (some arg)
    let st := addCall st ⟨st.live, some opt, some arg⟩
    if rc != 0 then Sum.inl (mkRes CLIP_ERR_CB_FAIL st)
    else Sum.inr st

/-- The token dispatch of the `cli_parse` main loop body, in source order:
short cluster, long option, `@file`, bare `--`, other bare token.  `pos` is
the argv index the token `arg` was read from; `st` already has the cursor
advanced past it. -/
def cli_dispatch (clip : clip_t) (cb : Cb) (fs : Fs) (argc : Nat) (pos : Nat)
    (arg : Str) (st : St) : ParseRes ⊕ St :=
  if isShortOpt arg then cli_short clip cb argc st (arg.drop 1)
  else if isLongOpt arg then cli_long clip cb argc st pos arg
  else if byteAt arg 0 == '@' then
    match cli_do_file clip cb fs st (arg.drop 1) with
    | (r, st2) => if r != 0 then Sum.inl (mkRes r st2) else Sum.inr st2
  else if isDoubleDash arg then Sum.inl (mkRes CLIP_ERR_OK st)
  else cli_bare clip cb st arg

/-- One iteration of the `cli_parse` main loop: read `argv[clip->index++]`
and dispatch on the token class. -/
def cli_step (clip : clip_t) (cb : Cb) (fs : Fs) (argc : Nat) (st : St) :
    ParseRes ⊕ St :=
  cli_dispatch clip cb fs argc st.index (st.av.getD st.index [])
    { st with index := st.index + 1 }

/-- The `while (clip->index < argc)` main loop of `cli_parse`.  The fuel is
an upper bound on the remaining iterations (each consumes at least one
token); `cli_parse` passes `argc`, which always suffices. -/
def cli_loop (clip : clip_t) (cb : Cb) (fs : Fs) (argc : Nat) :
    Nat → St → ParseRes
  | 0, st => mkRes CLIP_ERR_OK st
  | fuel + 1, st =>
    if st.index < argc then
      match cli_step clip cb fs argc st with
      | Sum.inl res => res
      | Sum.inr st2 => cli_loop clip cb fs argc fuel st2
    else mkRes CLIP_ERR_OK st

/-- The auto-help test of the `cli_parse` pre-scan, exactly as coded: a token
whose first two bytes are `-h` (with no explicit base `h` option), or one of
length strictly greater than 6 that starts with `--help` (with no explicit
base `help` option), gated on `CLIP_FLAG_HELP`. -/
def help_show (clip : clip_t) (arg : Str) : Bool :=
  ((byteAt arg 0 == '-' && byteAt arg 1 == 'h' &&
      (cli_find_opt_0 clip.base [ 'h' ]).isNone) ||
   (decide (arg.length > 6) && arg.take 6 == "--help".toList &&
      (cli_find_opt_0 clip.base "help".toList).isNone)) &&
  (clip.flags &&& CLIP_FLAG_HELP) != 0

/-- The auto-version test of the `cli_parse` pre-scan, exactly as coded: a
token whose first two bytes are `-v` (with no explicit base `v` option), or
one of length at least 9 that starts with `--version` (with no explicit base
`version` option), gated on `CLIP_FLAG_VERSION` and a configured version. -/
def ver_show (clip : clip_t) (arg : Str) : Bool :=
  ((byteAt arg 0 == '-' && byteAt arg 1 == 'v' &&
      (cli_find_opt_0 clip.base [ 'v' ]).isNone) ||
   (decide (arg.length ≥ 9) && arg.take 9 == "--version".toList &&
      (cli_find_opt_0 clip.base "version".toList).isNone)) &&
  ((clip.flags &&& CLIP_FLAG_VERSION) != 0 && clip.version.isSome)

/-- Result of the pre-scan: which of the two auto outputs was hit first. -/
inductive PreHit where
  | help
  | version
deriving DecidableEq, Repr

/-- The `for (i = clip->index; i < argc; i++)` pre-scan of `cli_parse`,
checking each remaining token for auto-help then auto-version. -/
def cli_prescan (clip : clip_t) : List Str → Option PreHit
  | [] => none
  | arg :: rest =>
    if help_show clip arg then some PreHit.help
    else if ver_show clip arg then some PreHit.version
    else cli_prescan clip rest

/-- The sub-command detection step of `cli_parse`: when the token at the
cursor starts with an alphanumeric byte and sub-commands are registered and
one matches exactly, make it live and advance the cursor; otherwise leave
the state unchanged (the token falls through to the main loop). -/
def cli_detect (clip : clip_t) (st : St) : St :=
  let tok := st.av.getD st.index []
  if isalnumN (byteAt tok 0).toNat then
    match clip.cmds with
    | none => st
    | some _ =>
      match cli_find_cmd clip tok with
      | some c => { st with live := some c, index := st.index + 1 }
      | none => st
  else st

/-- The body of `cli_parse` after sub-command detection: the help/version
pre-scan over the remaining tokens (rendering and returning `CLIP_ERR_HELP`
on a hit) followed by the main token loop. -/
def cli_run (clip : clip_t) (cb : Cb) (fs : Fs) (argc : Nat) (st1 : St) :
    ParseRes :=
  match cli_prescan clip (st1.av.drop st1.index) with
  | some PreHit.help =>
    mkRes CLIP_ERR_HELP
      { st1 with out := st1.out ++ [OutEv.helpText st1.live],
                 defVer := cli_summary_defver clip st1.defVer }
  | some PreHit.version =>
    mkRes CLIP_ERR_HELP
      { st1 with out := st1.out ++
          [OutEv.versionLine clip.progname (clip.version.getD [])] }
  | none => cli_loop clip cb fs argc argc st1

/-- `cli_parse` from clip.c.  `dv` is the value of the static
`def_version.a_short` global when the call starts (`'v'` unless a previous
`cli_summary` cleared it).  The NULL-`clip` guard is not representable (the
configuration is passed by value); the `clip->index != 0` re-entry guard is. -/
def cli_parse (clip : clip_t) (cb : Cb) (fs : Fs) (dv : Nat)
    (argv : List Str) : ParseRes :=
  if clip.index != 0 then ⟨CLIP_ERR_INVALID, [], [], argv, dv⟩
  else if argv.length ≤ 1 then ⟨CLIP_ERR_OK, [], [], argv, dv⟩
  else
    cli_run clip cb fs argv.length
      (cli_detect clip ⟨1, clip.base, [], [], argv, dv⟩)

/-! ## Concrete configurations used to settle the claims -/

/-- Initial value of the static `def_version.a_short` (the descriptor is
initialised with `CLI_OPT_SWITCH('v', "version", ...)`). -/
def DV0 : Nat := Char.toNat 'v'

/-- A callback that accepts every invocation. -/
def cb0 : Cb := fun _ _ _ => 0

/-- A callback that rejects every invocation. -/
def cbFail : Cb := fun _ _ _ => 1

/-- An empty file system: every `fopen` fails. -/
def fs0 : Fs := fun _ => none

/-- `-a` switch for the clustering example. -/
def optA : cli_opt := ⟨Char.toNat 'a', none, none, 0, some "Flag a.".toList⟩

/-- `-b` switch for the clustering example. -/
def optB : cli_opt := ⟨Char.toNat 'b', none, none, 0, some "Flag b.".toList⟩

/-- `-c <T>` value-required option for the clustering example. -/
def optC : cli_opt :=
  ⟨Char.toNat 'c', none, some [ 'T' ], ARG_REQD, some "Takes T.".toList⟩

/-- Base group `{-a, -b, -c <T>}`. -/
def abcBase : cli_sub_cmd := ⟨none, [optA, optB, optC]⟩

/-- Configuration with the `{-a, -b, -c <T>}` base group and no flags. -/
def abcClip : clip_t :=
  ⟨"prog".toList, none, none, none, 0, some abcBase, none, 0⟩

/-- `-v` and `--verbose` switch. -/
def optVerbose : cli_opt :=
  ⟨Char.toNat 'v', some "verbose".toList, none, 0, some "More output.".toList⟩

/-- `-f` and `--file <PATH>` value-required option. -/
def optFile : cli_opt :=
  ⟨Char.toNat 'f', some "file".toList, some "PATH".toList, ARG_REQD,
   some "Input file.".toList⟩

/-- Base group of the verbose switch and the file value option. -/
def vfBase : cli_sub_cmd := ⟨none, [optVerbose, optFile]⟩

/-- Configuration with the verbose-and-file base group. -/
def vfClip : clip_t :=
  ⟨"prog".toList, none, none, none, 0, some vfBase, none, 0⟩

/-- A file system holding `thatfile` with lines `verbose` and `file=x.txt`. -/
def vfFs : Fs := fun p =>
  if p == "thatfile".toList then
    some ["verbose\n".toList, "file=x.txt\n".toList]
  else none

/-- The `PACKAGE` catch-all of the `install` sub-command. -/
def pkgOpt : cli_opt :=
  ⟨0, none, some "PACKAGE".toList, ARG_ANYK, some "Packages.".toList⟩

/-- The `install` sub-command with a `PACKAGE` catch-all. -/
def installCmd : cli_sub_cmd := ⟨some "install".toList, [pkgOpt]⟩

/-- Configuration with an empty base group and the `install` sub-command. -/
def instClip : clip_t :=
  ⟨"pip".toList, none, none, none, 0, some ⟨none, []⟩, some [installCmd], 0⟩

/-- Configuration with `AutoHelp`, base `{-a, -b, -c <T>}` (no `h`/`help`). -/
def helpClip : clip_t :=
  ⟨"prog".toList, none, none, none, CLIP_FLAG_HELP, some abcBase, none, 0⟩

/-- A long-only `--version` descriptor (short key 300, as in expip.c). -/
def verLongOpt : cli_opt :=
  ⟨300, some "version".toList, none, 0, some "Show version.".toList⟩

/-- Base group `{-a, --version}`: a `version`-named descriptor, no `v` key. -/
def verBase : cli_sub_cmd := ⟨none, [optA, verLongOpt]⟩

/-- Configuration with `AutoVersion`, a version string, and a base group
declaring the long option `--version` but no short `v`. -/
def verClip : clip_t :=
  ⟨"prog".toList, none, none, some "9.9".toList, CLIP_FLAG_VERSION,
   some verBase, none, 0⟩

/-- Base group holding only the verbose switch. -/
def vOnlyBase : cli_sub_cmd := ⟨none, [optVerbose]⟩

/-- Configuration with `AutoHelp` and `AutoVersion` whose base group declares
a short `v` option (shadowing the auto version short form). -/
def helpVClip : clip_t :=
  ⟨"prog".toList, none, none, some "1.0".toList,
   CLIP_FLAG_HELP ||| CLIP_FLAG_VERSION, some vOnlyBase, none, 0⟩

/-- Configuration with the verbose-only base group and no flags. -/
def vOnlyClip : clip_t :=
  ⟨"prog".toList, none, none, none, 0, some vOnlyBase, none, 0⟩

/-! ## Theorems for the claims -/

/-- C6: for options `{-a: Switch, -b: Switch, -c <T>: ValueRequired}`, the
input `-abc data` yields callback calls `a`, `b`, `c("data")` (the value
taken from the next whole token) and the input `-abcdata` yields the same
three calls with the inline remainder `data` as the value; in both cases no
character after the value-consuming `c` is interpreted and the parse
succeeds. -/
theorem c6_short_cluster :
    cli_parse abcClip cb0 fs0 DV0
        ["prog".toList, "-abc".toList, "data".toList] =
      ⟨0, [⟨some abcBase, some optA, none⟩, ⟨some abcBase, some optB, none⟩,
           ⟨some abcBase, some optC, some "data".toList⟩], [],
       ["prog".toList, "-abc".toList, "data".toList], DV0⟩ ∧
    cli_parse abcClip cb0 fs0 DV0 ["prog".toList, "-abcdata".toList] =
      ⟨0, [⟨some abcBase, some optA, none⟩, ⟨some abcBase, some optB, none⟩,
           ⟨some abcBase, some optC, some "data".toList⟩], [],
       ["prog".toList, "-abcdata".toList], DV0⟩ := by
  constructor <;> rfl

/-- C9: for `--file=x.txt` the `=` byte of the caller argv buffer is
overwritten with NUL for the lookup and restored after a successful
dispatch (final argv equals the input), but when the callback rejects the
value-required long option with its inline value, `cli_parse` returns
`CLIP_ERR_CB_FAIL` with the NUL still in place of the `=`. -/
theorem c9_long_inline_mutation :
    cli_parse vfClip cb0 fs0 DV0 ["prog".toList, "--file=x.txt".toList] =
      ⟨0, [⟨some vfBase, some optFile, some "x.txt".toList⟩], [],
       ["prog".toList, "--file=x.txt".toList], DV0⟩ ∧
    cli_parse vfClip cbFail fs0 DV0 ["prog".toList, "--file=x.txt".toList] =
      ⟨CLIP_ERR_CB_FAIL, [⟨some vfBase, some optFile, some "x.txt".toList⟩],
       [],
       ["prog".toList, "--file".toList ++ nulChar :: "x.txt".toList], DV0⟩ := by
  constructor <;> rfl

/-- C1 (evaluation at the failing input): with the `install` sub-command
(catch-all `PACKAGE`) and input `install pkgA pkgB`, the code fires the
callback exactly twice - once per package, under the `install` group - and
never with a null option, i.e. no callback is made for the sub-command
selection itself, contrary to the claim and to the clip.h callback
documentation. -/
theorem c1_no_subcmd_callback :
    cli_parse instClip cb0 fs0 DV0
        ["pip".toList, "install".toList, "pkgA".toList, "pkgB".toList] =
      ⟨0, [⟨some installCmd, some pkgOpt, some "pkgA".toList⟩,
           ⟨some installCmd, some pkgOpt, some "pkgB".toList⟩], [],
       ["pip".toList, "install".toList, "pkgA".toList, "pkgB".toList],
       DV0⟩ ∧
    ((cli_parse instClip cb0 fs0 DV0
        ["pip".toList, "install".toList, "pkgA".toList, "pkgB".toList]).trace.all
      (fun c => c.opt.isSome)) = true := by
  constructor <;> rfl

/-- C3 (evaluation at the failing input): with `AutoHelp` set and no
explicit `h`/`help` descriptor, the literal token `--help` does **not**
render help - the pre-scan demands a length strictly greater than 6, so the
token falls through to the main loop and the parse fails with
`CLIP_ERR_BAD_ARG` - while `-h` does render help, and so does the
non-literal token `-hxyz`. -/
theorem c3_literal_help_missed :
    cli_parse helpClip cb0 fs0 DV0 ["prog".toList, "--help".toList] =
      ⟨CLIP_ERR_BAD_ARG, [], [OutEv.diag MSG_INVALID_OPT 2 "help".toList],
       ["prog".toList, "--help".toList], DV0⟩ ∧
    cli_parse helpClip cb0 fs0 DV0 ["prog".toList, "-h".toList] =
      ⟨CLIP_ERR_HELP, [], [OutEv.helpText (some abcBase)],
       ["prog".toList, "-h".toList], DV0⟩ ∧
    cli_parse helpClip cb0 fs0 DV0 ["prog".toList, "-hxyz".toList] =
      ⟨CLIP_ERR_HELP, [], [OutEv.helpText (some abcBase)],
       ["prog".toList, "-hxyz".toList], DV0⟩ := by
  refine ⟨?_, ?_, ?_⟩ <;> rfl

/-- C2 (counterexample): `--bogus` against a group declaring only
`--verbose` makes `cli_parse` return `CLIP_ERR_BAD_ARG` (-4), not
`CLIP_ERR_INVALID` (-1) as the claim states, with no callback fired. -/
theorem c2_outcome_cex :
    cli_parse vOnlyClip cb0 fs0 DV0 ["prog".toList, "--bogus".toList] =
      ⟨CLIP_ERR_BAD_ARG, [], [OutEv.diag MSG_INVALID_OPT 2 "bogus".toList],
       ["prog".toList, "--bogus".toList], DV0⟩ ∧
    CLIP_ERR_BAD_ARG ≠ CLIP_ERR_INVALID := by
  exact ⟨rfl, by decide⟩

/-- C4 (counterexample): with `AutoVersion` set, a version string
configured, and a base group that *does* declare an explicit
`version`-named descriptor (long name only, as in expip.c), the literal
token `-v` still triggers the auto-version path - the short form is checked
only against a short key `v` - so the claimed shadowing by any `v`/`version`
descriptor does not hold. -/
theorem c4_version_shadow_cex :
    cli_parse verClip cb0 fs0 DV0 ["prog".toList, "-v".toList] =
      ⟨CLIP_ERR_HELP, [],
       [OutEv.versionLine "prog".toList "9.9".toList],
       ["prog".toList, "-v".toList], DV0⟩ ∧
    (verBase.opts.any (fun o => o.a_long == some "version".toList)) = true := by
  constructor <;> rfl

/-- C5 (counterexample): a parse that renders auto-help while
`CLIP_FLAG_VERSION` is set and the base group declares a short `v` option
clears the `a_short` field of the shared static `def_version` descriptor
from `'v'` (118) to 0 - descriptor data is mutated during the call. -/
theorem c5_defver_mutation_cex :
    (cli_parse helpVClip cb0 fs0 DV0 ["prog".toList, "-h".toList]).defVer = 0 ∧
    DV0 ≠ 0 ∧
    (cli_parse helpVClip cb0 fs0 DV0 ["prog".toList, "-h".toList]).r =
      CLIP_ERR_HELP := by
  exact ⟨rfl, by decide, rfl⟩

/-- C8: calling `cli_parse` on a configuration whose cursor state `index` is
non-zero (left over from a previous parse and not reset) returns
`CLIP_ERR_INVALID` immediately: no token is processed, no callback is
invoked, no output is produced, and the argv buffers are untouched. -/
theorem c8_reparse_guard (clip : clip_t) (cb : Cb) (fs : Fs) (dv : Nat)
    (argv : List Str) (h : clip.index ≠ 0) :
    cli_parse clip cb fs dv argv = ⟨CLIP_ERR_INVALID, [], [], argv, dv⟩ := by
  have hb : (clip.index != 0) = true := by simpa using h
  unfold cli_parse
  simp [hb]

/-- Witness for C8 at a concrete used configuration. -/
theorem c8_reparse_guard_witness :
    ({ abcClip with index := 3 } : clip_t).index ≠ 0 ∧
    cli_parse { abcClip with index := 3 } cb0 fs0 DV0
        ["prog".toList, "-a".toList] =
      ⟨CLIP_ERR_INVALID, [], [], ["prog".toList, "-a".toList], DV0⟩ := by
  exact ⟨by decide,
    c8_reparse_guard { abcClip with index := 3 } cb0 fs0 DV0
      ["prog".toList, "-a".toList] (by decide)⟩

/-- C4 (amended): the auto-version trigger condition, per token form: the
literal token `-v` triggers exactly when `CLIP_FLAG_VERSION` is set, a
version string is configured, and the base group has no descriptor with
short key `v`; the literal token `--version` triggers exactly when the flag
and version string are present and the base group has no descriptor with
long name `version`.  A descriptor carrying only the other form does not
shadow (clip.h documents this: with an explicit `-v`, the flag still
enables `--version`). -/
theorem c4_version_shadow_amended (clip : clip_t) :
    (ver_show clip [ '-', 'v' ] = true ↔
      ((clip.flags &&& CLIP_FLAG_VERSION) ≠ 0 ∧ clip.version.isSome = true ∧
       cli_find_opt_0 clip.base [ 'v' ] = none)) ∧
    (ver_show clip "--version".toList = true ↔
      ((clip.flags &&& CLIP_FLAG_VERSION) ≠ 0 ∧ clip.version.isSome = true ∧
       cli_find_opt_0 clip.base "version".toList = none)) := by
  constructor
  · simp [ver_show, byteAt, Option.isNone_iff_eq_none, and_comm, and_assoc]
  · simp [ver_show, byteAt, Option.isNone_iff_eq_none, and_comm, and_assoc]

/-! ### Frame lemmas: nothing in the main loop touches `def_version` -/

/-- Projection of a step outcome to the `def_version.a_short` component. -/
def stepDefVer : ParseRes ⊕ St → Nat
  | Sum.inl res => res.defVer
  | Sum.inr st => st.defVer

lemma cli_short_defver (clip : clip_t) (cb : Cb) (argc : Nat) :
    ∀ (rest : Str) (st : St),
      stepDefVer (cli_short clip cb argc st rest) = st.defVer := by
  intro rest
  induction rest with
  | nil => intro st; rfl
  | cons c rest2 ih =>
    intro st
    unfold cli_short
    rcases hf : cli_find_opt clip st.live [c] with _ | ⟨w, o⟩
    · simp [hf, stepDefVer, mkRes, cli_bad_arg]
    · simp only [hf]
      split
      · split
        · rfl
        · exact ih _
      · split
        · split
          · split
            · split <;> rfl
            · rfl
          · split <;> rfl
        · exact ih _

lemma cli_long_defver (clip : clip_t) (cb : Cb) (argc : Nat) (st : St)
    (pos : Nat) (arg : Str) :
    stepDefVer (cli_long clip cb argc st pos arg) = st.defVer := by
  unfold cli_long
  rcases he : strchrIdx (arg.drop 2) '=' with _ | j <;>
    simp only [he] <;> split <;>
    first
      | rfl
      | (repeat' split) <;> rfl

lemma cli_file_lines_defver (clip : clip_t) (cb : Cb) :
    ∀ (chunks : List Str) (st : St),
      (cli_file_lines clip cb st chunks).2.defVer = st.defVer := by
  intro chunks
  induction chunks with
  | nil => intro st; rfl
  | cons raw rest ih =>
    intro st
    unfold cli_file_lines
    dsimp only
    split
    · rfl
    · split
      · rfl
      · exact ih _

lemma cli_do_file_defver (clip : clip_t) (cb : Cb) (fs : Fs) (st : St)
    (path : Str) :
    (cli_do_file clip cb fs st path).2.defVer = st.defVer := by
  unfold cli_do_file
  split
  · rfl
  · exact cli_file_lines_defver clip cb _ st

lemma cli_bare_defver (clip : clip_t) (cb : Cb) (st : St) (arg : Str) :
    stepDefVer (cli_bare clip cb st arg) = st.defVer := by
  unfold cli_bare
  split
  · rfl
  · dsimp only
    split <;> rfl

lemma cli_dispatch_defver (clip : clip_t) (cb : Cb) (fs : Fs) (argc : Nat)
    (pos : Nat) (arg : Str) (st : St) :
    stepDefVer (cli_dispatch clip cb fs argc pos arg st) = st.defVer := by
  unfold cli_dispatch
  split
  · exact cli_short_defver clip cb argc _ _
  · split
    · exact cli_long_defver clip cb argc _ _ _
    · split
      · have hp := cli_do_file_defver clip cb fs st (arg.drop 1)
        rcases hdf : cli_do_file clip cb fs st (arg.drop 1) with ⟨r, st2⟩
        rw [hdf] at hp
        dsimp only
        split <;> simp_all [stepDefVer, mkRes]
      · split
        · rfl
        · exact cli_bare_defver clip cb _ _

lemma cli_step_defver (clip : clip_t) (cb : Cb) (fs : Fs) (argc : Nat)
    (st : St) : stepDefVer (cli_step clip cb fs argc st) = st.defVer := by
  unfold cli_step
  exact cli_dispatch_defver clip cb fs argc _ _ _

lemma cli_loop_defver (clip : clip_t) (cb : Cb) (fs : Fs) (argc : Nat) :
    ∀ (fuel : Nat) (st : St),
      (cli_loop clip cb fs argc fuel st).defVer = st.defVer := by
  intro fuel
  induction fuel with
  | zero => intro st; rfl
  | succ n ih =>
    intro st
    unfold cli_loop
    split
    · rcases hs : cli_step clip cb fs argc st with res | st2
      · have hd := cli_step_defver clip cb fs argc st
        rw [hs] at hd
        simpa [stepDefVer] using hd
      · have hd := cli_step_defver clip cb fs argc st
        rw [hs] at hd
        simp only [stepDefVer] at hd
        rw [ih st2, hd]
    · rfl

lemma cli_detect_defver (clip : clip_t) (st : St) :
    (cli_detect clip st).defVer = st.defVer := by
  unfold cli_detect
  dsimp only
  split
  · split
    · rfl
    · split <;> rfl
  · rfl

/-- C5 (amended): during a `cli_parse` call, caller argv buffers aside, the
only descriptor datum ever written is the `a_short` field of the library's
own shared static `def_version` descriptor: it either keeps its entry value
or is cleared to 0, and the latter happens only on the auto-help rendering
path when `CLIP_FLAG_VERSION` is set and the base group declares an explicit
short `v` option.  Caller-declared option and sub-command tables are never
written at all (they are read-only values in this model, mirrored from the
`const` tables of the source). -/
theorem c5_defver_only_mutation (clip : clip_t) (cb : Cb) (fs : Fs)
    (dv : Nat) (argv : List Str) :
    (cli_parse clip cb fs dv argv).defVer = dv ∨
    ((cli_parse clip cb fs dv argv).defVer = 0 ∧
     (cli_parse clip cb fs dv argv).r = CLIP_ERR_HELP ∧
     (clip.flags &&& CLIP_FLAG_VERSION) ≠ 0 ∧
     (cli_find_opt_0 clip.base [ 'v' ]).isSome = true) := by
  unfold cli_parse
  split
  · left; rfl
  · split
    · left; rfl
    · generalize hst1 : cli_detect clip ⟨1, clip.base, [], [], argv, dv⟩ = st1
      have hdv : st1.defVer = dv := by
        rw [← hst1]
        exact cli_detect_defver clip _
      unfold cli_run
      split
      · rename_i hps
        by_cases hv : ((clip.flags &&& CLIP_FLAG_VERSION) != 0 &&
            (cli_find_opt_0 clip.base [ 'v' ]).isSome) = true
        · right
          refine ⟨?_, rfl, ?_, ?_⟩
          · simp [mkRes, cli_summary_defver, hv]
          · simpa using (Bool.and_elim_left hv)
          · exact Bool.and_elim_right hv
        · left
          simp only [mkRes, cli_summary_defver]
          rw [if_neg hv, hdv]
      · left
        simpa [mkRes] using hdv
      · left
        rw [cli_loop_defver, hdv]

/-- Witness for C5 at a concrete configuration whose base lacks both a `v`
option and the version flag: `def_version` keeps its value. -/
theorem c5_defver_only_mutation_witness :
    (cli_parse abcClip cb0 fs0 DV0
        ["prog".toList, "-a".toList]).defVer = DV0 ∨
    ((cli_parse abcClip cb0 fs0 DV0
        ["prog".toList, "-a".toList]).defVer = 0 ∧
     (cli_parse abcClip cb0 fs0 DV0
        ["prog".toList, "-a".toList]).r = CLIP_ERR_HELP ∧
     (abcClip.flags &&& CLIP_FLAG_VERSION) ≠ 0 ∧
     (cli_find_opt_0 abcClip.base [ 'v' ]).isSome = true) :=
  c5_defver_only_mutation abcClip cb0 fs0 DV0 ["prog".toList, "-a".toList]

/-- C10: a token starting with `-` whose second byte is neither alphanumeric
nor a second `-` (`-`, `-=`, `-.`, ...) is classified as neither a short nor
a long option nor `--`, and is dispatched as a bare positional token (the
`cli_bare` branch: live-group catch-all if present, otherwise the
unrecognised-argument failure). -/
theorem c10_dash_nonalnum_bare (clip : clip_t) (cb : Cb) (fs : Fs)
    (argc pos : Nat) (st : St) :
    (∀ (c : Char) (r : Str),
      isalnumN c.toNat = false → c ≠ '-' →
      cli_dispatch clip cb fs argc pos ('-' :: c :: r) st =
        cli_bare clip cb st ('-' :: c :: r)) ∧
    cli_dispatch clip cb fs argc pos [ '-' ] st =
      cli_bare clip cb st [ '-' ] := by
  constructor
  · intro c r h hc
    have hc2 : (c == '-') = false := by simpa using hc
    simp [cli_dispatch, isShortOpt, isLongOpt, isDoubleDash, byteAt, h, hc2]
  · simp [cli_dispatch, isShortOpt, isLongOpt, isDoubleDash, byteAt, nulChar,
      isalnumN]

/-- Witness for C10 on the tokens `-=` and `-`. -/
theorem c10_dash_nonalnum_bare_witness :
    (isalnumN (Char.toNat '=') = false ∧ ('=' : Char) ≠ '-' ∧
     cli_dispatch vfClip cb0 fs0 2 1 [ '-', '=' ]
         ⟨2, some vfBase, [], [], ["prog".toList, "-=".toList], DV0⟩ =
       cli_bare vfClip cb0
         ⟨2, some vfBase, [], [], ["prog".toList, "-=".toList], DV0⟩
         [ '-', '=' ]) ∧
    cli_dispatch vfClip cb0 fs0 2 1 [ '-' ]
        ⟨2, some vfBase, [], [], ["prog".toList, "-".toList], DV0⟩ =
      cli_bare vfClip cb0
        ⟨2, some vfBase, [], [], ["prog".toList, "-".toList], DV0⟩ [ '-' ] :=
  ⟨⟨by decide, by decide,
    (c10_dash_nonalnum_bare vfClip cb0 fs0 2 1
        ⟨2, some vfBase, [], [], ["prog".toList, "-=".toList], DV0⟩).1
      '=' [] (by decide) (by decide)⟩,
   (c10_dash_nonalnum_bare vfClip cb0 fs0 2 1
        ⟨2, some vfBase, [], [], ["prog".toList, "-".toList], DV0⟩).2⟩

/-- C2 (amended): each unrecognized-token failure of the main loop - an
unknown short-option character, an unknown long-option name, a bare token
with no catch-all in the active group, and a value-required option (short or
long form) with no value available - emits one diagnostic and aborts the
parse with `CLIP_ERR_BAD_ARG` (-4), with no callback fired for the
offending token (the trace is left untouched). -/
theorem c2_unrecognized_badarg (clip : clip_t) (cb : Cb) (argc : Nat)
    (st : St) (c : Char) (rest : Str) (arg : Str) (pos : Nat) :
    (cli_find_opt clip st.live [c] = none →
      cli_short clip cb argc st (c :: rest) =
        Sum.inl ⟨CLIP_ERR_BAD_ARG, st.trace,
          st.out ++ [OutEv.diag MSG_INVALID_OPT 1 [c]], st.av, st.defVer⟩) ∧
    (strchrIdx (arg.drop 2) '=' = none →
      cli_find_opt clip st.live (arg.drop 2) = none →
      cli_long clip cb argc st pos arg =
        Sum.inl ⟨CLIP_ERR_BAD_ARG, st.trace,
          st.out ++ [OutEv.diag MSG_INVALID_OPT 2 (arg.drop 2)], st.av,
          st.defVer⟩) ∧
    (cli_find_any st.live = none →
      cli_bare clip cb st arg =
        Sum.inl ⟨CLIP_ERR_BAD_ARG, st.trace,
          st.out ++ [OutEv.diag MSG_UNRECOGNISED 0 arg], st.av,
          st.defVer⟩) ∧
    (∀ w o, cli_find_opt clip st.live [c] = some (w, o) →
      (o.mode &&& ARG_REQD) ≠ 0 → ¬ st.index < argc →
      cli_short clip cb argc st [c] =
        Sum.inl ⟨CLIP_ERR_BAD_ARG, st.trace,
          st.out ++ [OutEv.diag MSG_MISSING_VAL 1 [c]], st.av, st.defVer⟩) ∧
    (∀ w o, strchrIdx (arg.drop 2) '=' = none →
      cli_find_opt clip st.live (arg.drop 2) = some (w, o) →
      (o.mode &&& ARG_REQD) ≠ 0 → ¬ st.index < argc →
      cli_long clip cb argc st pos arg =
        Sum.inl ⟨CLIP_ERR_BAD_ARG, st.trace,
          st.out ++ [OutEv.diag MSG_MISSING_VAL 2 (arg.drop 2)], st.av,
          st.defVer⟩) := by
  refine ⟨?_, ?_, ?_, ?_, ?_⟩
  · intro hf
    unfold cli_short
    simp [hf, mkRes, cli_bad_arg]
  · intro he hf
    unfold cli_long
    simp [he, hf, mkRes, cli_bad_arg]
  · intro hf
    unfold cli_bare
    simp [hf, mkRes, cli_bad_arg]
  · intro w o hf hm hidx
    have hm0 : (o.mode == 0) = false := by
      rcases Nat.eq_zero_or_pos o.mode with h0 | h0
      · exfalso; exact hm (by simp [h0])
      · simpa using Nat.pos_iff_ne_zero.mp h0
    have hmb : ((o.mode &&& ARG_REQD) != 0) = true := by simpa using hm
    unfold cli_short
    simp [hf, hm0, hmb, hidx, mkRes, cli_bad_arg]
  · intro w o he hf hm hidx
    have hm0 : (o.mode == 0) = false := by
      rcases Nat.eq_zero_or_pos o.mode with h0 | h0
      · exfalso; exact hm (by simp [h0])
      · simpa using Nat.pos_iff_ne_zero.mp h0
    have hmb : ((o.mode &&& ARG_REQD) != 0) = true := by simpa using hm
    unfold cli_long
    simp [he, hf, hm0, hmb, hidx, mkRes, cli_bad_arg]

/-- A main-loop state used by the C2 witness: cursor at the last token. -/
def stW : St := ⟨2, some vfBase, [], [], ["prog".toList, "-x".toList], DV0⟩

/-- Witness for C2: each of the five failure shapes evaluated concretely
(unknown `-x`, unknown `--bogus`, bare token without catch-all, `-f` and
`--file` with no next token). -/
theorem c2_unrecognized_badarg_witness :
    (cli_find_opt vfClip stW.live [ 'x' ] = none ∧
     cli_short vfClip cb0 2 stW [ 'x' ] =
       Sum.inl ⟨CLIP_ERR_BAD_ARG, stW.trace,
         stW.out ++ [OutEv.diag MSG_INVALID_OPT 1 [ 'x' ]], stW.av,
         stW.defVer⟩) ∧
    (cli_long vfClip cb0 2 stW 1 "--bogus".toList =
       Sum.inl ⟨CLIP_ERR_BAD_ARG, stW.trace,
         stW.out ++ [OutEv.diag MSG_INVALID_OPT 2 "bogus".toList], stW.av,
         stW.defVer⟩) ∧
    (cli_bare vfClip cb0 stW "junk".toList =
       Sum.inl ⟨CLIP_ERR_BAD_ARG, stW.trace,
         stW.out ++ [OutEv.diag MSG_UNRECOGNISED 0 "junk".toList], stW.av,
         stW.defVer⟩) ∧
    (cli_short vfClip cb0 2 stW [ 'f' ] =
       Sum.inl ⟨CLIP_ERR_BAD_ARG, stW.trace,
         stW.out ++ [OutEv.diag MSG_MISSING_VAL 1 [ 'f' ]], stW.av,
         stW.defVer⟩) ∧
    (cli_long vfClip cb0 2 stW 1 "--file".toList =
       Sum.inl ⟨CLIP_ERR_BAD_ARG, stW.trace,
         stW.out ++ [OutEv.diag MSG_MISSING_VAL 2 "file".toList], stW.av,
         stW.defVer⟩) :=
  ⟨⟨by decide,
    (c2_unrecognized_badarg vfClip cb0 2 stW 'x' [] [] 1).1 (by decide)⟩,
   (c2_unrecognized_badarg vfClip cb0 2 stW 'x' [] "--bogus".toList 1).2.1
     (by decide) (by decide),
   (c2_unrecognized_badarg vfClip cb0 2 stW 'x' [] "junk".toList 1).2.2.1
     (by decide),
   (c2_unrecognized_badarg vfClip cb0 2 stW 'f' [] [] 1).2.2.2.1
     (some vfBase) optFile (by decide) (by decide) (by decide),
   (c2_unrecognized_badarg vfClip cb0 2 stW 'x' [] "--file".toList 1).2.2.2.2
     (some vfBase) optFile (by decide) (by decide) (by decide) (by decide)⟩

/-- C7: for the base group declaring the `-v`/`--verbose` switch and the
`-f`/`--file` value option, expanding the token `@thatfile` - where the file
holds the two lines `verbose` and `file=x.txt` - produces exactly the same
callback invocation sequence (same descriptors, same owning group, same
values, in the same order) and the same outcome as the direct tokens
`-v --file=x.txt`, for every callback, including rejecting ones. -/
theorem c7_argfile_equiv (cb : Cb) :
    (cli_parse vfClip cb vfFs DV0
        ["prog".toList, "@thatfile".toList]).trace =
      (cli_parse vfClip cb fs0 DV0
        ["prog".toList, "-v".toList, "--file=x.txt".toList]).trace ∧
    (cli_parse vfClip cb vfFs DV0
        ["prog".toList, "@thatfile".toList]).r =
      (cli_parse vfClip cb fs0 DV0
        ["prog".toList, "-v".toList, "--file=x.txt".toList]).r := by
  by_cases h1 : cb (some vfBase) optVerbose none = 0 <;>
    by_cases h2 : cb (some vfBase) optFile (some ("x.txt".toList)) = 0 <;>
      simp [vfBase, optVerbose, optFile, vfClip, ARG_REQD, ARG_ANYK]
        at h1 h2 <;>
      simp [cli_parse, cli_run, cli_detect, cli_prescan, help_show, ver_show,
        cli_loop, cli_step, cli_dispatch, cli_short, cli_long, cli_bare,
        cli_do_file, cli_file_lines, cli_find_opt, cli_find_opt_0,
        cli_find_any, cli_find_cmd, optMatches, mkRes, addCall, cli_bad_arg,
        strchrIdx, byteAt, isShortOpt, isLongOpt, isDoubleDash, isalnumN,
        vfClip, vfBase, vfFs, optVerbose, optFile, ARG_REQD, ARG_ANYK,
        CLIP_ERR_OK, CLIP_ERR_HELP, CLIP_ERR_CB_FAIL, CLIP_ERR_BAD_ARG,
        CLIP_FLAG_HELP, CLIP_FLAG_VERSION, MSG_INVALID_OPT, MSG_MISSING_VAL,
        MSG_UNRECOGNISED, DV0, nulChar, h1, h2]

end Clip
